import Mathlib

/-!
Verification of the bike-sharing dashboard scripts
(`dashboard/app.py` and `dashboard/app-2.py`).

The scripts load two CSV tables (hourly and daily rental records),
filter them by a user-chosen date range, aggregate them with group-bys,
and compute an RFM (Recency / Frequency / Monetary) segmentation via
quartile binning (`pd.qcut`) and an ordered rule list
(`segment_customers`).  Below, a table is a `List RentalRecord`, dates
are day indices (`Nat`), and `pd.qcut`'s quantile binning is embedded
exactly over `ℚ` (numpy linear-interpolation quantiles, right-closed
bins with the lowest edge included).
-/

/-- A row of the loaded tables (`hour.csv` / `day.csv`): the columns the
dashboards actually use.  `dteday` is a day index; `hr` is 0 for daily rows. -/
structure RentalRecord where
  dteday : Nat
  hr : Nat
  season : Nat
  weathersit : Nat
  weekday : Nat
  casual : Nat
  registered : Nat
  cnt : Nat
deriving DecidableEq, Repr

/-- The sidebar date filter of both scripts
(`df[(df['dteday'] >= start) & (df['dteday'] <= end)]`). -/
def filterRange (s e : Nat) (df : List RentalRecord) : List RentalRecord :=
  df.filter (fun r => decide (s ≤ r.dteday ∧ r.dteday ≤ e))

/-- `df['dteday'].min()` (0 on the empty table, where pandas gives NaT). -/
def minDte : List RentalRecord → Nat
  | [] => 0
  | [r] => r.dteday
  | r :: rs => min r.dteday (minDte rs)

/-- `df['dteday'].max()` (0 on the empty table, where pandas gives NaT). -/
def maxDte : List RentalRecord → Nat
  | [] => 0
  | r :: rs => max r.dteday (maxDte rs)

theorem minDte_le {df : List RentalRecord} {r : RentalRecord} (h : r ∈ df) :
    minDte df ≤ r.dteday := by
  induction df with
  | nil => cases h
  | cons a l ih =>
    cases l with
    | nil =>
      rcases List.mem_cons.mp h with h | h
      · simp [minDte, h]
      · cases h
    | cons b l2 =>
      rcases List.mem_cons.mp h with h | h
      · subst h; exact Nat.min_le_left _ _
      · exact le_trans (Nat.min_le_right _ _) (ih h)

theorem le_maxDte {df : List RentalRecord} {r : RentalRecord} (h : r ∈ df) :
    r.dteday ≤ maxDte df := by
  induction df with
  | nil => cases h
  | cons a l ih =>
    rcases List.mem_cons.mp h with h | h
    · subst h; exact Nat.le_max_left _ _
    · exact le_trans (ih h) (Nat.le_max_right _ _)

/-- Claim C6: the date filter is an inclusive range predicate and nothing
else: a row is in the filtered table iff it is in the table and
`start ≤ dteday ≤ end`. -/
theorem mem_filterRange_iff (s e : Nat) (df : List RentalRecord) (r : RentalRecord) :
    r ∈ filterRange s e df ↔ r ∈ df ∧ s ≤ r.dteday ∧ r.dteday ≤ e := by
  simp [filterRange, List.mem_filter]

/-- Claim C5: filtering with the full range — start at the minimum `dteday`
and end at the maximum `dteday` of the table — keeps every row. -/
theorem filterRange_full_eq_self (df : List RentalRecord) :
    filterRange (minDte df) (maxDte df) df = df := by
  apply List.filter_eq_self.mpr
  intro r hr
  simpa using ⟨minDte_le hr, le_maxDte hr⟩

/-- Claim C1: the filter selects rows without modifying them, so the
invariant `cnt = casual + registered` is preserved: if every row of the
loaded table satisfies it, every row of any date-filtered table does. -/
theorem filterRange_preserves_cnt (df : List RentalRecord) (s e : Nat)
    (h : ∀ r ∈ df, r.cnt = r.casual + r.registered) :
    ∀ r ∈ filterRange s e df, r.cnt = r.casual + r.registered := by
  intro r hr
  exact h r ((mem_filterRange_iff s e df r).mp hr).1

theorem filterRange_preserves_cnt_witness :
    (∀ r ∈ [RentalRecord.mk 0 0 1 1 0 2 3 5], r.cnt = r.casual + r.registered) ∧
    (∀ r ∈ filterRange 0 1 [RentalRecord.mk 0 0 1 1 0 2 3 5],
      r.cnt = r.casual + r.registered) :=
  ⟨by decide, filterRange_preserves_cnt [RentalRecord.mk 0 0 1 1 0 2 3 5] 0 1 (by decide)⟩

/-- The segment-labeling rule list of `app-2.py` (`segment_customers`),
applied to the quartile labels R, F, M. -/
def segment_customers (r f m : Nat) : String :=
  if 3 ≤ r ∧ 3 ≤ f ∧ 3 ≤ m then "Best Customers"
  else if 3 ≤ r ∧ 3 ≤ f then "Loyal Customers"
  else if 3 ≤ r then "Recent Customers"
  else if 3 ≤ f ∧ 3 ≤ m then "High Value"
  else "Lost Customers"

/-- The five segment names the rule list can produce. -/
def segmentNames : List String :=
  ["Best Customers", "Loyal Customers", "Recent Customers", "High Value", "Lost Customers"]

/-- Claim C2: on every quartile triple in {1,2,3,4}³ the rule list returns
exactly one of the five segment names; the highest-priority rule sends
R ≥ 3, F ≥ 3, M ≥ 3 to "Best Customers", and a triple matched by no rule
(R < 3 and not (F ≥ 3 and M ≥ 3)) falls through to "Lost Customers". -/
theorem segment_customers_total (r f m : Nat)
    (hr : 1 ≤ r ∧ r ≤ 4) (hf : 1 ≤ f ∧ f ≤ 4) (hm : 1 ≤ m ∧ m ≤ 4) :
    segment_customers r f m ∈ segmentNames ∧
    ((3 ≤ r ∧ 3 ≤ f ∧ 3 ≤ m) → segment_customers r f m = "Best Customers") ∧
    ((r < 3 ∧ ¬(3 ≤ f ∧ 3 ≤ m)) → segment_customers r f m = "Lost Customers") := by
  obtain ⟨hr1, hr4⟩ := hr
  obtain ⟨hf1, hf4⟩ := hf
  obtain ⟨hm1, hm4⟩ := hm
  interval_cases r <;> interval_cases f <;> interval_cases m <;> decide

theorem segment_customers_total_witness :
    ((1 ≤ 3 ∧ 3 ≤ 4) ∧ (1 ≤ 3 ∧ 3 ≤ 4) ∧ (1 ≤ 3 ∧ 3 ≤ 4)) ∧
    (segment_customers 3 3 3 ∈ segmentNames ∧
      ((3 ≤ 3 ∧ 3 ≤ 3 ∧ 3 ≤ 3) → segment_customers 3 3 3 = "Best Customers") ∧
      ((3 < 3 ∧ ¬(3 ≤ 3 ∧ 3 ≤ 3)) → segment_customers 3 3 3 = "Lost Customers")) :=
  ⟨by decide,
    segment_customers_total 3 3 3 (by decide) (by decide) (by decide)⟩

/-! ## Quartile binning (`pd.qcut`, q = 4)

`pd.qcut(x, q=4, labels)` computes the quantiles of `x` at
0, 1/4, 1/2, 3/4, 1 with numpy's linear interpolation, and assigns each
value the first bin whose right edge it does not exceed; the bins are
right-closed and the lowest edge is included in the first bin
(`include_lowest`).  Values are rationals, so quantile interpolation is
exact. -/

/-- Insert into a ≤-sorted list of rationals. -/
def insertRat (x : ℚ) : List ℚ → List ℚ
  | [] => [x]
  | y :: ys => if x ≤ y then x :: y :: ys else y :: insertRat x ys

/-- Sort a list of rationals ascending (insertion sort). -/
def sortRat (xs : List ℚ) : List ℚ := xs.foldr insertRat []

/-- numpy linear-interpolation quantile of an ascending-sorted list:
`h = p * (n - 1)`, `k = ⌊h⌋`, result `a_k + (h - k) * (a_(k+1) - a_k)`. -/
def quantileSorted (s : List ℚ) (p : ℚ) : ℚ :=
  match s with
  | [] => 0
  | _ :: _ =>
    let h : ℚ := p * ((s.length : ℚ) - 1)
    let k : Nat := (⌊h⌋).toNat
    let a := s.getD k 0
    let b := s.getD (k + 1) a
    a + (h - (k : ℚ)) * (b - a)

/-- The five quartile edges `pd.qcut(x, q=4)` computes from the series. -/
def quartileEdges (xs : List ℚ) : List ℚ :=
  [quantileSorted (sortRat xs) 0,
   quantileSorted (sortRat xs) (1/4),
   quantileSorted (sortRat xs) (1/2),
   quantileSorted (sortRat xs) (3/4),
   quantileSorted (sortRat xs) 1]

/-- Find the first right edge that `v` is below or at; bins are numbered
from `i`. -/
def binIndex (edges : List ℚ) (v : ℚ) (i : Nat) : Option Nat :=
  match edges with
  | [] => none
  | e :: rest => if v ≤ e then some i else binIndex rest v (i + 1)

/-- Assign `v` its 1-based bin among the right-closed bins delimited by
`edges`; the lowest edge is included in bin 1 (`include_lowest`), values
outside all bins get `none` (pandas: NaN). -/
def qcutAssign (edges : List ℚ) (v : ℚ) : Option Nat :=
  match edges with
  | [] => none
  | e0 :: rest => if v < e0 then none else binIndex rest v 1

/-- `pd.qcut(xs, q=4)` as bin numbers 1–4 per element. -/
def qcutSeries (xs : List ℚ) : List (Option Nat) :=
  xs.map (qcutAssign (quartileEdges xs))

theorem binIndex_ge {edges : List ℚ} {v : ℚ} {i b : Nat}
    (h : binIndex edges v i = some b) : i ≤ b := by
  induction edges generalizing i with
  | nil => cases h
  | cons e rest ih =>
    by_cases hv : v ≤ e
    · simp only [binIndex, if_pos hv, Option.some.injEq] at h
      omega
    · simp only [binIndex, if_neg hv] at h
      exact le_trans (Nat.le_succ i) (ih h)

theorem binIndex_mono {edges : List ℚ} {v1 v2 : ℚ} {i b1 b2 : Nat}
    (hv : v1 ≤ v2)
    (h1 : binIndex edges v1 i = some b1)
    (h2 : binIndex edges v2 i = some b2) : b1 ≤ b2 := by
  induction edges generalizing i with
  | nil => cases h1
  | cons e rest ih =>
    by_cases hv1 : v1 ≤ e
    · simp only [binIndex, if_pos hv1, Option.some.injEq] at h1
      subst h1
      exact binIndex_ge h2
    · have hv2 : ¬ v2 ≤ e := fun hle => hv1 (le_trans hv hle)
      simp only [binIndex, if_neg hv1] at h1
      simp only [binIndex, if_neg hv2] at h2
      exact ih h1 h2

/-- Claim C7: quartile assignment is monotonically non-decreasing in the
raw value: within one binning (one edge list computed from the series), a
value that is less than or equal to another never receives a larger bin
number. -/
theorem qcutAssign_mono (xs : List ℚ) (v1 v2 : ℚ) (b1 b2 : Nat)
    (hv : v1 ≤ v2)
    (h1 : qcutAssign (quartileEdges xs) v1 = some b1)
    (h2 : qcutAssign (quartileEdges xs) v2 = some b2) : b1 ≤ b2 := by
  rcases hE : quartileEdges xs with _ | ⟨e0, rest⟩
  · rw [hE] at h1; cases h1
  · rw [hE] at h1 h2
    by_cases hv1 : v1 < e0
    · simp only [qcutAssign, if_pos hv1] at h1; cases h1
    · have hv2 : ¬ v2 < e0 := fun hlt => hv1 (lt_of_le_of_lt hv hlt)
      simp only [qcutAssign, if_neg hv1] at h1
      simp only [qcutAssign, if_neg hv2] at h2
      exact binIndex_mono hv h1 h2

theorem qcutAssign_at_200 :
    qcutAssign (quartileEdges [100, 200, 300, 400]) 200 = some 2 := by
  norm_num [qcutAssign, quartileEdges, quantileSorted, sortRat, insertRat, binIndex,
    show Int.toNat 0 = 0 from rfl, show Int.toNat 1 = 1 from rfl,
    show Int.toNat 2 = 2 from rfl, show Int.toNat 3 = 3 from rfl]

theorem qcutAssign_at_300 :
    qcutAssign (quartileEdges [100, 200, 300, 400]) 300 = some 3 := by
  norm_num [qcutAssign, quartileEdges, quantileSorted, sortRat, insertRat, binIndex,
    show Int.toNat 0 = 0 from rfl, show Int.toNat 1 = 1 from rfl,
    show Int.toNat 2 = 2 from rfl, show Int.toNat 3 = 3 from rfl]

theorem qcutAssign_mono_witness :
    (200 : ℚ) ≤ 300 ∧
    qcutAssign (quartileEdges [100, 200, 300, 400]) 200 = some 2 ∧
    qcutAssign (quartileEdges [100, 200, 300, 400]) 300 = some 3 ∧
    (2 : Nat) ≤ 3 :=
  ⟨by norm_num, qcutAssign_at_200, qcutAssign_at_300,
    qcutAssign_mono [100, 200, 300, 400] 200 300 2 3 (by norm_num)
      qcutAssign_at_200 qcutAssign_at_300⟩

/-- Claim C8: on the 4-day series of total counts [100, 200, 300, 400]
the Frequency quartile binning assigns labels [1, 2, 3, 4] in ascending
order of count. -/
theorem qcut_example_100_400 :
    qcutSeries [100, 200, 300, 400] = [some 1, some 2, some 3, some 4] := by
  norm_num [qcutSeries, qcutAssign, quartileEdges, quantileSorted, sortRat,
    insertRat, binIndex, show Int.toNat 0 = 0 from rfl, show Int.toNat 1 = 1 from rfl,
    show Int.toNat 2 = 2 from rfl, show Int.toNat 3 = 3 from rfl]

/-! ## Recency (`app-2.py` per day, `app.py` per season)

`app-2.py` sets `last_date = daily_df['dteday'].max()` and
`Recency = (last_date - daily_df['dteday']).dt.days`.
`app.py` sets `last_date = daily_df['dteday'].max() + pd.Timedelta(days=1)`
and per season computes `(last_date - x.max()).days` over the season's
dates. -/

/-- The rows of one season (the row set a `groupby('season')` group sees). -/
def seasonRows (df : List RentalRecord) (s : Nat) : List RentalRecord :=
  df.filter (fun r => decide (r.season = s))

/-- `app-2.py` Recency of one row: `(last_date - dteday).dt.days` with
`last_date = daily_df['dteday'].max()`. -/
def app2RecencyRow (df : List RentalRecord) (r : RentalRecord) : Nat :=
  maxDte df - r.dteday

/-- `app-2.py` Recency column over the filtered daily table. -/
def app2Recency (df : List RentalRecord) : List Nat :=
  df.map (fun r => maxDte df - r.dteday)

/-- `app.py` Recency of a season:
`(last_date - x.max()).days` with `last_date = max + Timedelta(days=1)`. -/
def appPySeasonRecency (df : List RentalRecord) (s : Nat) : Nat :=
  (maxDte df + 1) - maxDte (seasonRows df s)

/-- A two-row daily table: day 0 in season 1 and day 10 in season 2. -/
def recencyCexDf : List RentalRecord :=
  [RentalRecord.mk 0 0 1 1 0 1 1 2, RentalRecord.mk 10 0 2 1 0 1 1 2]

/-- Claim C3, counterexample: in `app.py` the season holding the most
recent date (season 2, day 10) gets Recency `(10 + 1) - 10 = 1`, not
`max - seasonMax = 0` as the claim states — `last_date` is the maximum
date plus one day, so the most recent season's Recency is 1, not 0. -/
theorem app_py_recency_cex :
    appPySeasonRecency recencyCexDf 2 ≠
      maxDte recencyCexDf - maxDte (seasonRows recencyCexDf 2) := by
  decide

/-- Claim C3, amended: in `app-2.py` (per day) Recency of a row is
`max dteday - dteday` and the most recent row has Recency 0; in `app.py`
(per season) Recency is `(max dteday + 1) - (season's max dteday)`, one
more than the claim's value, and a season holding the most recent date
has Recency 1, not 0. -/
theorem recency_amended (df : List RentalRecord) (r : RentalRecord) (s : Nat)
    (hr : r ∈ df) (hmax : maxDte df ≤ r.dteday)
    (hs : maxDte (seasonRows df s) = maxDte df) :
    app2RecencyRow df r = 0 ∧
    (∀ x ∈ df, app2RecencyRow df x = maxDte df - x.dteday) ∧
    appPySeasonRecency df s = (maxDte df + 1) - maxDte (seasonRows df s) ∧
    appPySeasonRecency df s = 1 := by
  refine ⟨Nat.sub_eq_zero_of_le hmax, fun _ _ => rfl, rfl, ?_⟩
  rw [appPySeasonRecency, hs]
  omega

theorem recency_amended_witness :
    (RentalRecord.mk 10 0 2 1 0 1 1 2 ∈ recencyCexDf ∧
      maxDte recencyCexDf ≤ (RentalRecord.mk 10 0 2 1 0 1 1 2).dteday ∧
      maxDte (seasonRows recencyCexDf 2) = maxDte recencyCexDf) ∧
    (app2RecencyRow recencyCexDf (RentalRecord.mk 10 0 2 1 0 1 1 2) = 0 ∧
      (∀ x ∈ recencyCexDf, app2RecencyRow recencyCexDf x =
        maxDte recencyCexDf - x.dteday) ∧
      appPySeasonRecency recencyCexDf 2 =
        (maxDte recencyCexDf + 1) - maxDte (seasonRows recencyCexDf 2) ∧
      appPySeasonRecency recencyCexDf 2 = 1) :=
  ⟨by decide,
    recency_amended recencyCexDf (RentalRecord.mk 10 0 2 1 0 1 1 2) 2
      (by decide) (by decide) (by decide)⟩

/-! ## Percentage KPIs (`app-2.py` lines 51–53)

`st.metric("Casual Users", f"{(hourly_df['casual'].sum() / hourly_df['cnt'].sum() * 100):.1f}%")`
and the same with `registered`: a plain division of column sums with no
conditional around it. -/

/-- `df['casual'].sum()` as a rational. -/
def sumCasual (df : List RentalRecord) : ℚ :=
  (df.map (fun r => (r.casual : ℚ))).sum

/-- `df['registered'].sum()` as a rational. -/
def sumRegistered (df : List RentalRecord) : ℚ :=
  (df.map (fun r => (r.registered : ℚ))).sum

/-- `df['cnt'].sum()` as a rational. -/
def sumCnt (df : List RentalRecord) : ℚ :=
  (df.map (fun r => (r.cnt : ℚ))).sum

/-- The Casual Users KPI, exactly the expression the script evaluates:
`casual.sum() / cnt.sum() * 100`, with no guard on the denominator. -/
def casualPct (df : List RentalRecord) : ℚ :=
  sumCasual df / sumCnt df * 100

/-- The Registered Users KPI: `registered.sum() / cnt.sum() * 100`,
with no guard on the denominator. -/
def registeredPct (df : List RentalRecord) : ℚ :=
  sumRegistered df / sumCnt df * 100

theorem filterRange_above_max_eq_nil (df : List RentalRecord) :
    filterRange (maxDte df + 1) (maxDte df + 1) df = [] := by
  rw [filterRange, List.filter_eq_nil_iff]
  intro r hr
  have := le_maxDte hr
  simp only [decide_eq_true_eq, not_and]
  omega

/-- Claim C9: whatever table is loaded, the date picker (unconstrained in
`app-2.py`) can produce a filtered row set whose `cnt` sum is zero, and the
percentage KPIs still evaluate the very division — denominator zero — since
no guard exists in `casualPct` / `registeredPct`. -/
theorem pct_division_by_zero_reachable (df : List RentalRecord) :
    ∃ s e, s ≤ e ∧ sumCnt (filterRange s e df) = 0 ∧
      casualPct (filterRange s e df) =
        sumCasual (filterRange s e df) / 0 * 100 ∧
      registeredPct (filterRange s e df) =
        sumRegistered (filterRange s e df) / 0 * 100 := by
  refine ⟨maxDte df + 1, maxDte df + 1, le_refl _, ?_, ?_, ?_⟩ <;>
    rw [filterRange_above_max_eq_nil] <;>
    simp [sumCnt, casualPct, registeredPct]

/-! ## The per-day RFM pipeline of `app-2.py`

`rfm_df['Frequency'] = daily_df['cnt']` and
`rfm_df['Monetary'] = daily_df['cnt']` — the same series; F uses labels
`range(1, 5)`, M uses labels `range(1, 5)`, R uses reversed labels
`range(4, 0, -1)`. -/

/-- `daily_df['cnt']` as a rational series (Frequency and Monetary). -/
def cntSeries (df : List RentalRecord) : List ℚ :=
  df.map (fun r => (r.cnt : ℚ))

/-- The Recency column as a rational series. -/
def recencySeries (df : List RentalRecord) : List ℚ :=
  (app2Recency df).map (fun n => (n : ℚ))

/-- `r_quartiles`: quartiles of Recency with labels `range(4, 0, -1)` —
bin `b` of 4 gets label `5 - b`, so the most recent bin is labeled 4. -/
def rQuartiles (df : List RentalRecord) : List (Option Nat) :=
  (recencySeries df).map
    (fun v => (qcutAssign (quartileEdges (recencySeries df)) v).map (fun b => 5 - b))

/-- `f_quartiles`: quartiles of `rfm_df['Frequency']` (= `daily_df['cnt']`)
with labels `range(1, 5)`. -/
def fQuartiles (df : List RentalRecord) : List (Option Nat) :=
  qcutSeries (cntSeries df)

/-- `m_quartiles`: quartiles of `rfm_df['Monetary']` (= `daily_df['cnt']`,
the same series as Frequency) with labels `range(1, 5)`. -/
def mQuartiles (df : List RentalRecord) : List (Option Nat) :=
  qcutSeries (cntSeries df)

/-- Read a quartile label out of an assignment (0 for pandas NaN, which
compares as false in `>= 3` just as NaN does). -/
def optLabel (o : Option Nat) : Nat := o.getD 0

/-- `rfm_df.apply(segment_customers, axis=1)`: the segment of each row,
from its R, F, M quartile labels. -/
def rfmSegments (df : List RentalRecord) : List String :=
  List.zipWith3
    (fun ro fo mo => segment_customers (optLabel ro) (optLabel fo) (optLabel mo))
    (rQuartiles df) (fQuartiles df) (mQuartiles df)

theorem segment_customers_eq_not_loyal (r x : Nat) :
    segment_customers r x x ≠ "Loyal Customers" := by
  unfold segment_customers
  split_ifs with h1 h2 h3 h4 <;>
    first
      | decide
      | exact absurd ⟨h2.1, h2.2, h2.2⟩ h1

theorem zipWith_same_fm_not_loyal (A B : List (Option Nat)) :
    ∀ s ∈ List.zipWith
      (fun a b => segment_customers (optLabel a) (optLabel b) (optLabel b)) A B,
      s ≠ "Loyal Customers" := by
  induction A generalizing B with
  | nil => simp
  | cons a A ih =>
    cases B with
    | nil => simp
    | cons b B =>
      intro s hs
      rcases List.mem_cons.mp hs with h | h
      · subst h; exact segment_customers_eq_not_loyal _ _
      · exact ih B s h

/-- Claim C10: the Monetary quartile column is the very same as the
Frequency quartile column (both are `pd.qcut(daily_df['cnt'], 4, labels=range(1,5))`),
so the "Loyal Customers" branch of the rule list — which needs F ≥ 3 while
M < 3 — is unreachable: no row of any table is ever labeled "Loyal Customers". -/
theorem loyal_customers_unreachable (df : List RentalRecord) :
    mQuartiles df = fQuartiles df ∧
    ∀ s ∈ rfmSegments df, s ≠ "Loyal Customers" := by
  refine ⟨rfl, ?_⟩
  intro s hs
  rw [rfmSegments, show mQuartiles df = fQuartiles df from rfl,
    List.zipWith3_same_right] at hs
  exact zipWith_same_fm_not_loyal _ _ s hs

/-! ## Group-by aggregations

Plain group-bys such as `hourly_df.groupby('hr')['cnt'].mean()` emit one
row per distinct key value present, in ascending key order.  The
segmentation group-bys of `app.py`
(`daily_df.groupby('rental_segment', observed=False)`) run on a
*categorical* key produced by `pd.qcut(..., labels=['Low','Medium','High','Very High'])`
with `observed=False`, so they emit one row per declared category whether
or not it occurs. -/

/-- Insert into a ≤-sorted list of naturals. -/
def insertNat (x : Nat) : List Nat → List Nat
  | [] => [x]
  | y :: ys => if x ≤ y then x :: y :: ys else y :: insertNat x ys

/-- Sort a list of naturals ascending (pandas sorts group keys). -/
def sortNat (xs : List Nat) : List Nat := xs.foldr insertNat []

/-- The mean a pandas `mean()` reduction computes (0 on an empty group,
where pandas gives NaN). -/
def ratMean (xs : List ℚ) : ℚ := xs.sum / xs.length

/-- The distinct key values present in the table, in ascending order:
the index of a plain `df.groupby(key)`. -/
def groupKeys (key : RentalRecord → Nat) (df : List RentalRecord) : List Nat :=
  sortNat (df.map key).dedup

/-- `df.groupby(key)[col].mean()`: one row per distinct key present. -/
def groupByMean (key : RentalRecord → Nat) (val : RentalRecord → ℚ)
    (df : List RentalRecord) : List (Nat × ℚ) :=
  (groupKeys key df).map
    (fun k => (k, ratMean ((df.filter (fun r => decide (key r = k))).map val)))

theorem length_insertNat (x : Nat) (l : List Nat) :
    (insertNat x l).length = l.length + 1 := by
  induction l with
  | nil => rfl
  | cons y ys ih =>
    by_cases h : x ≤ y <;> simp [insertNat, h, ih]

theorem length_sortNat (l : List Nat) : (sortNat l).length = l.length := by
  induction l with
  | nil => rfl
  | cons y ys ih =>
    show (insertNat y (sortNat ys)).length = ys.length + 1
    rw [length_insertNat, ih]

/-- The four category labels `pd.qcut(daily_df['cnt'], 4, labels=...)`
declares in `app.py`. -/
def segLabels : List String := ["Low", "Medium", "High", "Very High"]

/-- The categorical label of one qcut bin (`NaN` for an unassigned value). -/
def rentalSegment (o : Option Nat) : String :=
  match o with
  | some b => segLabels.getD (b - 1) "NaN"
  | none => "NaN"

/-- `daily_df['rental_segment']`: the qcut category per row. -/
def rentalSegments (df : List RentalRecord) : List String :=
  (qcutSeries (cntSeries df)).map rentalSegment

/-- The daily table with its `rental_segment` column attached. -/
def withSegments (df : List RentalRecord) : List (RentalRecord × String) :=
  df.zip (rentalSegments df)

/-- `daily_df.groupby('rental_segment', observed=False)['cnt'].mean()`:
one row per *declared* category, observed or not. -/
def segmentAvg (df : List RentalRecord) : List (String × ℚ) :=
  segLabels.map
    (fun c => (c, ratMean (((withSegments df).filter
      (fun p => decide (p.2 = c))).map (fun p => (p.1.cnt : ℚ)))))

/-- A two-row filtered daily table (counts 100 and 200 on days 0 and 1):
a reachable state of `app.py` when the picker spans two days. -/
def twoDayDf : List RentalRecord :=
  [RentalRecord.mk 0 0 1 1 0 40 60 100, RentalRecord.mk 1 0 1 1 0 80 120 200]

theorem twoDayDf_segments :
    rentalSegments twoDayDf = ["Low", "Very High"] := by
  norm_num [rentalSegments, qcutSeries, cntSeries, twoDayDf, qcutAssign,
    quartileEdges, quantileSorted, sortRat, insertRat, binIndex,
    show Int.toNat 0 = 0 from rfl, show Int.toNat 1 = 1 from rfl,
    rentalSegment, segLabels]

/-- Claim C4, counterexample: on a two-day filtered table with counts
[100, 200] the qcut segments present are just {"Low", "Very High"} (2
distinct keys), but the `observed=False` group-by emits 4 rows — one per
declared category — so its row count is not the number of distinct keys
present. -/
theorem segment_groupby_cardinality_cex :
    (segmentAvg twoDayDf).length ≠ ((rentalSegments twoDayDf).dedup).length := by
  rw [twoDayDf_segments]
  simp [segmentAvg, segLabels]

/-- Claim C4, amended: a plain group-by (by hour, weekday, season or
weather) emits exactly one row per distinct key value present in the
filtered table, but the rental-segment group-bys pass `observed=False` on
a categorical key, so they emit one row per declared category label
(4 = `segLabels.length`) even when a label is absent from the rows. -/
theorem groupby_cardinality (key : RentalRecord → Nat) (val : RentalRecord → ℚ)
    (df : List RentalRecord) :
    (groupByMean key val df).length = ((df.map key).dedup).length ∧
    (segmentAvg df).length = segLabels.length := by
  constructor
  · simp [groupByMean, groupKeys, length_sortNat]
  · simp [segmentAvg]
